import Mathlib

/-!
Verification of the car-sales-dashboard scenario forecasting engine
(`car_sales_dashboard/models/scenario_engine.py`) against its
natural-language specification.

The Python code is shallowly embedded:
* `datetime` dates become `ℤ` (days since 1970-01-01, proleptic Gregorian);
  `date.year` / `date.month` are `yearOf` / `monthOf` below, and Python's
  `date + timedelta(days = n)` is integer addition.
* floating point values become `ℚ` (the claims under scrutiny are about the
  exact multiplicative structure of the computations, not rounding).
* pandas DataFrames become lists of records; `groupby('date')` with the
  default `sort=True` becomes "distinct keys, sorted ascending",
  group sums become `List.sum` and group means become `mean` below.
* code that can raise returns `Option` / `Except`, or returns the unchanged
  state paired with an error marker where the claim is about mutation.
-/

/-! ## Calendar model

`civilFromDays` / `daysFromCivil` implement the standard proleptic-Gregorian
conversion between a day count (days since 1970-01-01) and a civil
(year, month, day) triple, which is exactly the arithmetic Python's
`datetime.date` exposes through `.year` / `.month`.  `Int.fdiv` (floor
division) is used throughout, matching the mathematical derivation of the
algorithm. -/

def civilFromDays (z0 : ℤ) : ℤ × ℤ × ℤ :=
  let z := z0 + 719468
  let era := z.fdiv 146097
  let doe := z - era * 146097
  let yoe := (doe - doe.fdiv 1460 + doe.fdiv 36524 - doe.fdiv 146096).fdiv 365
  let y := yoe + era * 400
  let doy := doe - (365 * yoe + yoe.fdiv 4 - yoe.fdiv 100)
  let mp := (5 * doy + 2).fdiv 153
  let d := doy - (153 * mp + 2).fdiv 5 + 1
  let m := if mp < 10 then mp + 3 else mp - 9
  (if m ≤ 2 then y + 1 else y, m, d)

def daysFromCivil (y m d : ℤ) : ℤ :=
  let yy := if m ≤ 2 then y - 1 else y
  let era := yy.fdiv 400
  let yoe := yy - era * 400
  let mp := if 2 < m then m - 3 else m + 9
  let doy := (153 * mp + 2).fdiv 5 + d - 1
  let doe := yoe * 365 + yoe.fdiv 4 - yoe.fdiv 100 + doy
  era * 146097 + doe - 719468

/-- Python `date.year`. -/
def yearOf (z : ℤ) : ℤ := (civilFromDays z).1

/-- Python `date.month`. -/
def monthOf (z : ℤ) : ℤ := (civilFromDays z).2.1

/-! ## Data model -/

/-- One raw sales record, restricted to the columns the scenario engine
reads (`date`, `sales`, `unemployment`, `gas_price`, `cpi_all`,
`search_volume`); the remaining columns of the fact table
(region, state, make, ...) are never touched by the engine. -/
structure SalesRecord where
  date : ℤ
  sales : ℚ
  unemployment : ℚ
  gas_price : ℚ
  cpi_all : ℚ
  search_volume : ℚ
deriving Repr, DecidableEq

/-- One row of the monthly aggregate produced by
`ScenarioEngine._aggregate_monthly_data`. -/
structure MonthlyRow where
  date : ℤ
  year : ℤ
  month : ℤ
  sales : ℚ
  unemployment : ℚ
  gas_price : ℚ
  cpi_all : ℚ
  search_volume : ℚ
deriving Repr, DecidableEq

/-- One row of the combined historical + forecast frame returned by
`ScenarioEngine.forecast`. -/
structure CombinedRow where
  date : ℤ
  year : ℤ
  month : ℤ
  sales : ℚ
  unemployment : ℚ
  gas_price : ℚ
  cpi_all : ℚ
  search_volume : ℚ
  is_forecast : Bool
deriving Repr, DecidableEq

/-- pandas column mean (`.mean()` of a group). -/
def mean (xs : List ℚ) : ℚ := xs.sum / (xs.length : ℚ)

/-! ## The aggregator (`ScenarioEngine._aggregate_monthly_data`)

`data.groupby('date')` (pandas default `sort=True`) yields the distinct
`date` keys in ascending order; per key the code sums `sales` and averages
the four exogenous columns, then re-derives `year`/`month` from the date. -/

/-- The distinct `date` keys of the groupby, ascending. -/
def aggKeys (rs : List SalesRecord) : List ℤ :=
  List.insertionSort (· ≤ ·) (rs.map (·.date)).dedup

/-- The aggregate row for one `date` group. -/
def aggRow (rs : List SalesRecord) (d : ℤ) : MonthlyRow :=
  let g := rs.filter (fun r => r.date = d)
  { date := d
    year := yearOf d
    month := monthOf d
    sales := (g.map (·.sales)).sum
    unemployment := mean (g.map (·.unemployment))
    gas_price := mean (g.map (·.gas_price))
    cpi_all := mean (g.map (·.cpi_all))
    search_volume := mean (g.map (·.search_volume)) }

/-- Embeds `ScenarioEngine._aggregate_monthly_data`. -/
def aggregateMonthlyData (rs : List SalesRecord) : List MonthlyRow :=
  (aggKeys rs).map (aggRow rs)

/-! ## The forecast (`ScenarioEngine.forecast`)

The Python loop builds `future_dates = [last_date + 30*i days, i = 1..months_ahead]`
and then iterates `for i, date in enumerate(future_dates)`; inside the body
that `enumerate` index restarts at 0, so the row for calendar step `i = j + 1`
uses `time_factor = 1.0 + j * 0.05`.  We index the loop by the enumerate
index `j ∈ range months_ahead` directly.

`self.model.predict` of the fitted regression backend is passed in as the
function `predict` (the forecast only reads it). -/

/-- A historical aggregate row carried into the combined frame
(`monthly_data['is_forecast'] = False`). -/
def histRow (m : MonthlyRow) : CombinedRow :=
  { date := m.date, year := m.year, month := m.month, sales := m.sales
    unemployment := m.unemployment, gas_price := m.gas_price
    cpi_all := m.cpi_all, search_volume := m.search_volume
    is_forecast := false }

/-- The body of the forecast loop for enumerate index `j`
(calendar step `i = j + 1`). -/
def forecastRow (predict : ℚ → ℚ → ℚ → ℚ → ℚ) (last : MonthlyRow)
    (umod gmod cmod smod : ℚ) (j : ℕ) : CombinedRow :=
  let date := last.date + 30 * ((j : ℤ) + 1)
  let time_factor : ℚ := 1 + (j : ℚ) * (5 / 100)
  let unemployment := last.unemployment * umod * time_factor
  let gas_price := last.gas_price * gmod * time_factor
  let cpi := last.cpi_all * cmod * time_factor
  let search_volume := last.search_volume * smod * time_factor
  let raw := predict unemployment gas_price cpi search_volume
  let month := monthOf date
  let predicted_sales :=
    if month = 3 ∨ month = 4 ∨ month = 5 ∨ month = 11 ∨ month = 12 then
      raw * (12 / 10)
    else if month = 1 ∨ month = 2 then
      raw * (8 / 10)
    else raw
  { date := date, year := yearOf date, month := month, sales := predicted_sales
    unemployment := unemployment, gas_price := gas_price, cpi_all := cpi
    search_volume := search_volume, is_forecast := true }

/-- Embeds `ScenarioEngine.forecast`.  `monthly_data.iloc[-1]` raises `IndexError`
on an empty aggregate, hence the `Option`: `none` models that exception. -/
def forecast (predict : ℚ → ℚ → ℚ → ℚ → ℚ) (rs : List SalesRecord)
    (umod gmod cmod smod : ℚ) (months_ahead : ℕ) : Option (List CombinedRow) :=
  let monthly := aggregateMonthlyData rs
  match monthly.getLast? with
  | none => none
  | some last =>
      some (monthly.map histRow ++
        (List.range months_ahead).map (forecastRow predict last umod gmod cmod smod))

/-! ## The engine object (`ScenarioEngine.__init__` / `.train`) -/

inductive ModelKind
  | linear
  | forest
deriving Repr, DecidableEq

/-- The unsupported-model-type `ValueError` raised by
`ScenarioEngine.__init__` on an unknown discriminator. -/
inductive EngineInitError
  | unsupportedModel (model_type : String)
deriving Repr, DecidableEq

/-- The `ValueError` sklearn's `fit` raises while validating an input with
zero samples (before touching any fitted attribute). -/
inductive TrainError
  | zeroSamples
deriving Repr, DecidableEq

/-- The mutable state of a `ScenarioEngine` instance.  Both sklearn
estimators' fitted parameters are a deterministic function of the `(X, y)`
passed to `fit` (the forest uses a fixed `random_state=42`), so the fitted
state is recorded as that pair; `none` is the unfitted estimator. -/
structure Engine where
  kind : ModelKind
  fitted : Option (List (List ℚ) × List ℚ)
  training_data : Option (List MonthlyRow)
deriving Repr, DecidableEq

/-- Embeds `ScenarioEngine.__init__(model_type)`. -/
def initScenarioEngine (model_type : String) : Except EngineInitError Engine :=
  if model_type = "linear" then
    .ok { kind := ModelKind.linear, fitted := none, training_data := none }
  else if model_type = "forest" then
    .ok { kind := ModelKind.forest, fitted := none, training_data := none }
  else
    .error (EngineInitError.unsupportedModel model_type)

/-- The feature row `['unemployment', 'gas_price', 'cpi_all', 'search_volume']`. -/
def featuresOf (m : MonthlyRow) : List ℚ :=
  [m.unemployment, m.gas_price, m.cpi_all, m.search_volume]

/-- Embeds `ScenarioEngine.train`: aggregate, fit the backend on `(X, y)`, then
store `training_data`.  sklearn's `fit` validates its input first and raises
on zero samples before any fitted attribute is assigned; in that case the
exception propagates out of `train` with the engine unchanged, which the
embedding returns as `(unchanged engine, some error)`. -/
def trainEngine (e : Engine) (rs : List SalesRecord) : Engine × Option TrainError :=
  let monthly := aggregateMonthlyData rs
  let X := monthly.map featuresOf
  let y := monthly.map (·.sales)
  if X.length = 0 then
    (e, some TrainError.zeroSamples)
  else
    ({ kind := e.kind, fitted := some (X, y), training_data := some monthly }, none)

/-- Embeds `ScenarioEngine.forecast` as a method call on the engine object: the
method body assigns to no attribute of `self` and never writes to `data`,
so the call returns its result together with the (unchanged) engine and
record list. -/
def engineForecast (e : Engine) (predict : ℚ → ℚ → ℚ → ℚ → ℚ)
    (rs : List SalesRecord) (umod gmod cmod smod : ℚ) (months_ahead : ℕ) :
    Option (List CombinedRow) × Engine × List SalesRecord :=
  (forecast predict rs umod gmod cmod smod months_ahead, e, rs)

/-! ## The linear regression backend (sklearn `LinearRegression`)

`LinearRegressionModel` wraps `sklearn.linear_model.LinearRegression`,
whose `fit` centers the columns of `X` and `y`, computes the minimum-norm
least-squares coefficient vector of the centered system (`scipy lstsq`),
and derives the intercept as `mean y - mean X . coef`.  That procedure is
characterized exactly by: `(coef, intercept)` minimizes the sum of squared
residuals, and `coef` has minimal Euclidean norm among all coefficient
vectors occurring in a minimizer.  The four features are carried as a
4-tuple. -/

def Coef : Type := ℚ × ℚ × ℚ × ℚ

instance : Repr Coef := inferInstanceAs (Repr (ℚ × ℚ × ℚ × ℚ))
instance : DecidableEq Coef := inferInstanceAs (DecidableEq (ℚ × ℚ × ℚ × ℚ))

def dot4 (a b : Coef) : ℚ :=
  a.1 * b.1 + a.2.1 * b.2.1 + a.2.2.1 * b.2.2.1 + a.2.2.2 * b.2.2.2

/-- The value `model.predict([[u, g, c, s]])[0]` of a fitted `LinearRegression`
with coefficients `β` and intercept `b`. -/
def predictLin (β : Coef) (b : ℚ) (u g c s : ℚ) : ℚ :=
  dot4 β (u, g, c, s) + b

/-- Sum of squared residuals of the affine model `(β, b)` on `(X, y)`. -/
def ssr (X : List Coef) (y : List ℚ) (β : Coef) (b : ℚ) : ℚ :=
  ((X.zip y).map (fun p => (dot4 β p.1 + b - p.2) ^ 2)).sum

def colMeans (X : List Coef) : Coef :=
  (mean (X.map (·.1)), mean (X.map (·.2.1)),
   mean (X.map (·.2.2.1)), mean (X.map (·.2.2.2)))

/-- Asserts `(β, b)` is the fit `sklearn.linear_model.LinearRegression().fit(X, y)`
produces: a global minimizer of the sum of squared residuals whose
coefficient vector has minimal squared norm among all minimizers, with the
intercept given by sklearn's centering identity. -/
def IsSklearnLinearFit (X : List Coef) (y : List ℚ) (β : Coef) (b : ℚ) : Prop :=
  (∀ β' b', ssr X y β b ≤ ssr X y β' b') ∧
  (∀ β' b', (∀ β'' b'', ssr X y β' b' ≤ ssr X y β'' b'') → dot4 β β ≤ dot4 β' β') ∧
  b = mean y - dot4 β (colMeans X)

def recordOfRow (m : MonthlyRow) : SalesRecord :=
  { date := m.date, sales := m.sales, unemployment := m.unemployment
    gas_price := m.gas_price, cpi_all := m.cpi_all
    search_volume := m.search_volume }

/-! ## Concrete fixtures -/

def defaultRow : CombinedRow :=
  { date := 0, year := 0, month := 0, sales := 0, unemployment := 0
    gas_price := 0, cpi_all := 0, search_volume := 0, is_forecast := false }

/-- A freshly constructed linear engine. -/
def engine0 : Engine :=
  { kind := ModelKind.linear, fitted := none, training_data := none }

/-- A single raw record with all engine-relevant values equal to 1, dated
1970-01-01. -/
def oneRecord : SalesRecord :=
  { date := 0, sales := 1, unemployment := 1, gas_price := 1, cpi_all := 1
    search_volume := 1 }

/-- Two records in the same calendar month (1970-01-01 and 1970-01-02)
with different exact dates. -/
def sameMonthRecords : List SalesRecord :=
  [oneRecord, { oneRecord with date := 1 }]

/-- The 12-month end-to-end scenario of the spec: unemployment 5.0,
gas price 3.0, CPI 250, search volume 80 in every month, and
sales = 20000 - 1000 x unemployment = 15000 in every month; one record on
the first of each month of 2015. -/
def records12 : List SalesRecord :=
  (List.range 12).map fun m =>
    { date := daysFromCivil 2015 ((m : ℤ) + 1) 1, sales := 15000
      unemployment := 5, gas_price := 3, cpi_all := 250, search_volume := 80 }

/-- The feature matrix `monthly_data[['unemployment', 'gas_price',
'cpi_all', 'search_volume']].values` for `records12`. -/
def X12 : List Coef :=
  (aggregateMonthlyData records12).map fun m =>
    (m.unemployment, m.gas_price, m.cpi_all, m.search_volume)

/-- The target vector `monthly_data['sales'].values` for `records12`. -/
def y12 : List ℚ :=
  (aggregateMonthlyData records12).map (·.sales)

/-- The last historical sales value of the monthly aggregate. -/
def lastSalesOf (rs : List SalesRecord) : ℚ :=
  (((aggregateMonthlyData rs).map (·.sales)).getLast?).getD 0

/-- The raw model prediction (before seasonal adjustment) at the one
forecast row produced by the spec's end-to-end scenario: train the linear
variant on `records12`, forecast one month ahead with
unemployment modifier 2.0 and the other modifiers 1.0, and re-apply the
fitted predictor to the stored projected exogenous values of the forecast
row. -/
def c6raw (β : Coef) (b : ℚ) : ℚ :=
  let out := (forecast (predictLin β b) records12 2 1 1 1 1).getD []
  let fr := out.getLast?.getD defaultRow
  predictLin β b fr.unemployment fr.gas_price fr.cpi_all fr.search_volume

/-- The aggregate row of a date group that consists of a single record. -/
def rowOf (r : SalesRecord) : MonthlyRow :=
  { date := r.date, year := yearOf r.date, month := monthOf r.date
    sales := r.sales, unemployment := r.unemployment
    gas_price := r.gas_price, cpi_all := r.cpi_all
    search_volume := r.search_volume }

/-- A constant predictor used to instantiate forecast claims. -/
def wpredict : ℚ → ℚ → ℚ → ℚ → ℚ := fun _ _ _ _ => 100

/-- Concrete forecast output: one record, all modifiers 1, one step. -/
def wout5 : List CombinedRow :=
  (forecast wpredict [oneRecord] 1 1 1 1 1).getD []

/-- The forecast row of `wout5`. -/
def wfr5 : CombinedRow := wout5.getLast?.getD defaultRow

/-- Concrete forecast output: one record, all modifiers 1, two steps. -/
def wout1 : List CombinedRow :=
  (forecast (fun _ _ _ _ => 0) [oneRecord] 1 1 1 1 2).getD []

/-- The single forecast row of a one-record, one-step forecast. -/
def c1row : Option CombinedRow :=
  ((forecast (fun _ _ _ _ => 0) [oneRecord] 1 1 1 1 1).getD []).getLast?

example : civilFromDays 0 = (1970, 1, 1) := by decide
example : daysFromCivil 1970 1 1 = 0 := by decide
example : civilFromDays (daysFromCivil 2015 1 1) = (2015, 1, 1) := by decide
example : civilFromDays (daysFromCivil 2015 1 1 + 30) = (2015, 1, 31) := by decide
example : civilFromDays (daysFromCivil 2016 2 29) = (2016, 2, 29) := by decide
example : civilFromDays (daysFromCivil 2016 3 1 - 1) = (2016, 2, 29) := by decide
example : civilFromDays (daysFromCivil 2015 12 1 + 30) = (2015, 12, 31) := by decide

/-! ## Shared facts about the aggregator -/

lemma aggKeys_nodup (rs : List SalesRecord) : (aggKeys rs).Nodup :=
  (List.perm_insertionSort _ _).nodup_iff.mpr (List.nodup_dedup _)

lemma aggKeys_sorted (rs : List SalesRecord) : (aggKeys rs).Sorted (· ≤ ·) :=
  List.sorted_insertionSort _ _

lemma aggKeys_mem (rs : List SalesRecord) (d : ℤ) :
    d ∈ aggKeys rs ↔ ∃ r ∈ rs, r.date = d := by
  unfold aggKeys
  rw [List.mem_insertionSort, List.mem_dedup, List.mem_map]

lemma map_date_agg (rs : List SalesRecord) :
    (aggregateMonthlyData rs).map (·.date) = aggKeys rs := by
  rw [aggregateMonthlyData, List.map_map]
  have h : ((fun m : MonthlyRow => m.date) ∘ aggRow rs) = fun d => d := rfl
  rw [h]
  exact List.map_id _

lemma agg_length (rs : List SalesRecord) :
    (aggregateMonthlyData rs).length = (aggKeys rs).length := by
  rw [aggregateMonthlyData, List.length_map]

lemma agg_eq_nil_iff (rs : List SalesRecord) :
    aggregateMonthlyData rs = [] ↔ rs = [] := by
  constructor
  · intro h
    by_contra hne
    obtain ⟨r, hr⟩ := List.exists_mem_of_ne_nil rs hne
    have : r.date ∈ aggKeys rs := (aggKeys_mem rs r.date).mpr ⟨r, hr, rfl⟩
    rw [aggregateMonthlyData] at h
    have hk := List.map_eq_nil_iff.mp h
    rw [hk] at this
    exact absurd this (List.not_mem_nil _)
  · intro h; subst h; rfl

lemma filter_eq_of_nodup :
    ∀ {l : List ℤ}, l.Nodup → ∀ {d : ℤ}, d ∈ l →
      l.filter (fun x => x = d) = [d] := by
  intro l h d hd
  induction l with
  | nil => cases hd
  | cons a l ih =>
      rcases List.nodup_cons.mp h with ⟨ha, hl⟩
      rcases List.mem_cons.mp hd with rfl | hd'
      · have hnil : l.filter (fun x => x = d) = [] := by
          rw [List.filter_eq_nil_iff]
          intro b hb hbd
          exact ha ((of_decide_eq_true hbd) ▸ hb)
        simp [List.filter_cons, hnil]
      · have hne : a ≠ d := fun had => ha (had ▸ hd')
        simp [List.filter_cons, hne, ih hl hd']

lemma mean_singleton (a : ℚ) : mean [a] = a := by
  simp [mean]

/-- Reading an aggregate row back as a raw record (the aggregator only ever
accesses the six columns below, so feeding its own output back in means
feeding these fields). -/
lemma ssr_nonneg (X : List Coef) (y : List ℚ) (β : Coef) (b : ℚ) :
    0 ≤ ssr X y β b := by
  apply List.sum_nonneg
  intro x hx
  obtain ⟨p, _, rfl⟩ := List.mem_map.mp hx
  exact sq_nonneg _

lemma dot4_self_nonneg (a : Coef) : 0 ≤ dot4 a a := by
  have h1 := mul_self_nonneg a.1
  have h2 := mul_self_nonneg a.2.1
  have h3 := mul_self_nonneg a.2.2.1
  have h4 := mul_self_nonneg a.2.2.2
  unfold dot4
  linarith

lemma filter_date_eq :
    ∀ {rs : List SalesRecord}, ((rs.map (·.date)).Nodup) → ∀ {r : SalesRecord},
      r ∈ rs → rs.filter (fun x => x.date = r.date) = [r] := by
  intro rs h r hr
  induction rs with
  | nil => cases hr
  | cons a rs ih =>
      rw [List.map_cons, List.nodup_cons] at h
      obtain ⟨ha, h'⟩ := h
      rcases List.mem_cons.mp hr with rfl | hr'
      · have hnil : rs.filter (fun x => x.date = r.date) = [] := by
          rw [List.filter_eq_nil_iff]
          intro x hx hxr
          exact ha (List.mem_map.mpr ⟨x, hx, of_decide_eq_true hxr⟩)
        simp [List.filter_cons, hnil]
      · have hne : ¬ (a.date = r.date) := fun had =>
          ha (had ▸ List.mem_map.mpr ⟨r, hr', rfl⟩)
        simp [List.filter_cons, hne, ih h' hr']

lemma aggRow_singleton (rs : List SalesRecord) (r : SalesRecord)
    (h : rs.filter (fun x => x.date = r.date) = [r]) :
    aggRow rs r.date = rowOf r := by
  simp [aggRow, h, rowOf, mean_singleton]

/-- When the input's dates are pairwise distinct and already ascending,
every group is a singleton and aggregation just recomputes `year`/`month`
per row. -/
lemma agg_of_distinct (rs : List SalesRecord)
    (h1 : (rs.map (·.date)).Nodup) (h2 : (rs.map (·.date)).Sorted (· ≤ ·)) :
    aggregateMonthlyData rs = rs.map rowOf := by
  have hk : aggKeys rs = rs.map (·.date) := by
    unfold aggKeys
    rw [List.dedup_eq_self.mpr h1, List.Sorted.insertionSort_eq h2]
  rw [aggregateMonthlyData, hk, List.map_map]
  exact List.map_congr_left fun r hr => aggRow_singleton rs r (filter_date_eq h1 hr)

lemma records12_dates_nodup : (records12.map (·.date)).Nodup := by decide

lemma records12_dates_sorted : (records12.map (·.date)).Sorted (· ≤ ·) := by decide

lemma agg12 : aggregateMonthlyData records12 = records12.map rowOf :=
  agg_of_distinct records12 records12_dates_nodup records12_dates_sorted

lemma X12_eq : X12 = List.replicate 12 ((5 : ℚ), (3 : ℚ), (250 : ℚ), (80 : ℚ)) := by
  simp only [X12]
  rw [agg12]
  simp only [records12, List.map_map]
  rfl

lemma y12_eq : y12 = List.replicate 12 (15000 : ℚ) := by
  simp only [y12]
  rw [agg12]
  simp only [records12, List.map_map]
  rfl

lemma ssr_replicate (n : ℕ) (x : Coef) (v : ℚ) (β : Coef) (b : ℚ) :
    ssr (List.replicate n x) (List.replicate n v) β b =
      (n : ℚ) * (dot4 β x + b - v) ^ 2 := by
  induction n with
  | zero => simp [ssr]
  | succ n ih =>
      rw [List.replicate_succ, List.replicate_succ]
      have hstep : ssr (x :: List.replicate n x) (v :: List.replicate n v) β b
          = (dot4 β x + b - v) ^ 2 + ssr (List.replicate n x) (List.replicate n v) β b := by
        rw [ssr, ssr, List.zip_cons_cons, List.map_cons, List.sum_cons]
      rw [hstep, ih]
      push_cast
      ring

lemma mean_replicate (n : ℕ) (h : n ≠ 0) (v : ℚ) :
    mean (List.replicate n v) = v := by
  rw [mean, List.sum_replicate, List.length_replicate, nsmul_eq_mul]
  rw [mul_comm, mul_div_assoc, div_self (by exact_mod_cast h), mul_one]

lemma ssr12 (β : Coef) (b : ℚ) :
    ssr X12 y12 β b = 12 * (dot4 β ((5 : ℚ), (3 : ℚ), (250 : ℚ), (80 : ℚ)) + b - 15000) ^ 2 := by
  rw [X12_eq, y12_eq, ssr_replicate]
  norm_num

lemma ssr12_zero : ssr X12 y12 ((0 : ℚ), (0 : ℚ), (0 : ℚ), (0 : ℚ)) 15000 = 0 := by
  rw [ssr12]
  simp [dot4]

/-- The minimum-norm OLS fit sklearn computes on the constant-feature
12-month scenario: zero coefficients, intercept 15000. -/
lemma isFitZero : IsSklearnLinearFit X12 y12 ((0 : ℚ), (0 : ℚ), (0 : ℚ), (0 : ℚ)) 15000 := by
  refine ⟨?_, ?_, ?_⟩
  · intro β' b'
    rw [ssr12_zero]
    exact ssr_nonneg X12 y12 β' b'
  · intro β' b' _
    have h0 : dot4 ((0 : ℚ), (0 : ℚ), (0 : ℚ), (0 : ℚ)) ((0 : ℚ), (0 : ℚ), (0 : ℚ), (0 : ℚ)) = 0 := by
      simp [dot4]
    rw [h0]
    exact dot4_self_nonneg β'
  · rw [y12_eq, mean_replicate 12 (by norm_num) 15000]
    simp [dot4]

lemma c6raw_zero : c6raw ((0 : ℚ), (0 : ℚ), (0 : ℚ), (0 : ℚ)) 15000 = 15000 := by
  have h : ∀ u g c s : ℚ,
      predictLin ((0 : ℚ), (0 : ℚ), (0 : ℚ), (0 : ℚ)) 15000 u g c s = 15000 := by
    intro u g c s
    simp [predictLin, dot4]
  simp only [c6raw]
  exact h _ _ _ _

lemma lastSales12 : lastSalesOf records12 = 15000 := by
  rw [lastSalesOf, agg12]
  rfl

/-- Computes `forecast` in closed form: `none` on an empty aggregate, otherwise the
historical rows followed by the forecast rows. -/
lemma forecast_spec (predict : ℚ → ℚ → ℚ → ℚ → ℚ) (rs : List SalesRecord)
    (umod gmod cmod smod : ℚ) (months_ahead : ℕ) :
    forecast predict rs umod gmod cmod smod months_ahead =
      ((aggregateMonthlyData rs).getLast?).map (fun last =>
        (aggregateMonthlyData rs).map histRow ++
          (List.range months_ahead).map (forecastRow predict last umod gmod cmod smod)) := by
  simp only [forecast]
  cases (aggregateMonthlyData rs).getLast? <;> rfl

/-! ## Claims -/

/-- C4: for every trained engine (any fitted predictor) and non-empty
record set, `forecast` with `months_ahead = 0` returns the historical
monthly aggregate alone: same length as the aggregate and no row with
`is_forecast = true`. -/
theorem forecast_zero_months (predict : ℚ → ℚ → ℚ → ℚ → ℚ)
    (rs : List SalesRecord) (umod gmod cmod smod : ℚ) (hne : rs ≠ []) :
    ∃ out, forecast predict rs umod gmod cmod smod 0 = some out ∧
      out.length = (aggregateMonthlyData rs).length ∧
      ∀ fr ∈ out, fr.is_forecast = false := by
  have hagg : aggregateMonthlyData rs ≠ [] := fun hc => hne ((agg_eq_nil_iff rs).mp hc)
  obtain ⟨last, hl⟩ := Option.isSome_iff_exists.mp (List.getLast?_isSome.mpr hagg)
  refine ⟨(aggregateMonthlyData rs).map histRow, ?_, List.length_map _ _, ?_⟩
  · rw [forecast_spec, hl]
    simp
  · intro fr hfr
    obtain ⟨m, -, rfl⟩ := List.mem_map.mp hfr
    rfl

/-- Witness for C4 at a concrete one-record input. -/
theorem forecast_zero_months_witness :
    ([oneRecord] ≠ ([] : List SalesRecord)) ∧
    ∃ out, forecast wpredict [oneRecord] 1 1 1 1 0 = some out ∧
      out.length = (aggregateMonthlyData [oneRecord]).length ∧
      ∀ fr ∈ out, fr.is_forecast = false :=
  ⟨by decide, forecast_zero_months wpredict [oneRecord] 1 1 1 1 (by decide)⟩

/-- C9: `forecast` has no side effect: the engine state and the input
records after a call are the ones before it, so a second call with
different modifiers on the resulting state equals the call on the original
state (no re-training happens between calls). -/
theorem forecast_no_side_effects (e : Engine) (predict : ℚ → ℚ → ℚ → ℚ → ℚ)
    (rs : List SalesRecord) (u1 g1 c1 s1 u2 g2 c2 s2 : ℚ) (m1 m2 : ℕ) :
    (engineForecast e predict rs u1 g1 c1 s1 m1).2.1 = e ∧
    (engineForecast e predict rs u1 g1 c1 s1 m1).2.2 = rs ∧
    engineForecast (engineForecast e predict rs u1 g1 c1 s1 m1).2.1 predict
        (engineForecast e predict rs u1 g1 c1 s1 m1).2.2 u2 g2 c2 s2 m2
      = engineForecast e predict rs u2 g2 c2 s2 m2 :=
  ⟨rfl, rfl, rfl⟩

/-- C10: the forecast rows' dates are `anchor date + 30 * i` days for
steps `i = 1 .. months_ahead` (here `i = j + 1` with `j` the list index of
the forecast segment). -/
theorem forecast_dates (predict : ℚ → ℚ → ℚ → ℚ → ℚ) (rs : List SalesRecord)
    (umod gmod cmod smod : ℚ) (months : ℕ) (out : List CombinedRow) (last : MonthlyRow)
    (h : forecast predict rs umod gmod cmod smod months = some out)
    (hl : (aggregateMonthlyData rs).getLast? = some last) :
    (out.drop (aggregateMonthlyData rs).length).map (·.date)
      = (List.range months).map (fun j : ℕ => last.date + 30 * ((j : ℤ) + 1)) := by
  rw [forecast_spec, hl] at h
  have hout := Option.some.inj h
  subst hout
  rw [List.drop_left' (List.length_map _ _), List.map_map]
  rfl

/-- Witness for C10: one record, two forecast steps. -/
theorem forecast_dates_witness :
    (wout1.drop (aggregateMonthlyData [oneRecord]).length).map (·.date)
      = (List.range 2).map (fun j : ℕ => (aggRow [oneRecord] 0).date + 30 * ((j : ℤ) + 1)) :=
  forecast_dates (fun _ _ _ _ => 0) [oneRecord] 1 1 1 1 2 wout1
    (aggRow [oneRecord] 0) rfl rfl

/-- C2 (amended): on the empty record collection the aggregator returns
the empty monthly series without failing, and `train` then fails (the
backend's zero-sample fit validation) leaving the engine — in particular
its fitted state — exactly as it was. -/
theorem train_empty_state_unchanged (e : Engine) :
    aggregateMonthlyData ([] : List SalesRecord) = [] ∧
    trainEngine e [] = (e, some TrainError.zeroSamples) :=
  ⟨rfl, rfl⟩

/-- Counterexample to C2 as stated: aggregation of the empty collection
does not fail with any error — `_aggregate_monthly_data` has no error path
and returns the empty series. -/
theorem aggregate_empty_returns_empty :
    aggregateMonthlyData ([] : List SalesRecord) = [] := rfl

/-- C8: construction with "linear" or "forest" succeeds and selects the
corresponding backend variant; any other discriminator fails at
construction time with the unsupported-model error, producing no engine. -/
theorem init_model_selection :
    (initScenarioEngine "linear"
        = .ok { kind := ModelKind.linear, fitted := none, training_data := none }) ∧
    (initScenarioEngine "forest"
        = .ok { kind := ModelKind.forest, fitted := none, training_data := none }) ∧
    ∀ s : String, s ≠ "linear" → s ≠ "forest" →
      initScenarioEngine s = .error (EngineInitError.unsupportedModel s) := by
  refine ⟨rfl, by simp [initScenarioEngine], ?_⟩
  intro s h1 h2
  rw [initScenarioEngine, if_neg h1, if_neg h2]

/-- Witness for C8 at the concrete discriminator "quadratic". -/
theorem init_model_selection_witness :
    ("quadratic" ≠ "linear") ∧ ("quadratic" ≠ "forest") ∧
    initScenarioEngine "quadratic"
      = .error (EngineInitError.unsupportedModel "quadratic") :=
  ⟨by decide, by decide, init_model_selection.2.2 "quadratic" (by decide) (by decide)⟩

/-- C7: aggregation is idempotent: re-aggregating the aggregator's own
output (read back as records) returns it unchanged. -/
theorem aggregate_idempotent (rs : List SalesRecord) :
    aggregateMonthlyData ((aggregateMonthlyData rs).map recordOfRow)
      = aggregateMonthlyData rs := by
  have hdates : ((aggregateMonthlyData rs).map recordOfRow).map (·.date) = aggKeys rs := by
    rw [List.map_map]
    rw [show ((fun r : SalesRecord => r.date) ∘ recordOfRow)
          = (fun m : MonthlyRow => m.date) from rfl]
    exact map_date_agg rs
  rw [agg_of_distinct _ (by rw [hdates]; exact aggKeys_nodup rs)
        (by rw [hdates]; exact aggKeys_sorted rs)]
  rw [List.map_map]
  have hfix : ∀ m ∈ aggregateMonthlyData rs, (rowOf ∘ recordOfRow) m = m := by
    intro m hm
    obtain ⟨d, -, rfl⟩ := List.mem_map.mp hm
    rfl
  rw [List.map_congr_left hfix]
  exact List.map_id _

/-- C3 (amended): the monthly aggregate has exactly one row per distinct
date value of the input (the groupby key is the exact date, not the
calendar month), and its dates are strictly increasing. -/
theorem aggregate_one_row_per_date (rs : List SalesRecord) :
    ((aggregateMonthlyData rs).map (·.date)).Nodup ∧
    (∀ d : ℤ, d ∈ (aggregateMonthlyData rs).map (·.date) ↔ ∃ r ∈ rs, r.date = d) ∧
    ((aggregateMonthlyData rs).map (·.date)).Pairwise (· < ·) := by
  rw [map_date_agg]
  refine ⟨aggKeys_nodup rs, fun d => aggKeys_mem rs d, ?_⟩
  have hand := List.Pairwise.and (aggKeys_sorted rs) (aggKeys_nodup rs)
  exact hand.imp fun hab => lt_of_le_of_ne hab.1 hab.2

/-- Counterexample to C3 as stated: two records of the same calendar month
(1970-01-01 and 1970-01-02) yield two aggregate rows, although only one
distinct (year, month) pair is present. -/
theorem aggregate_splits_month_by_date :
    (aggregateMonthlyData sameMonthRecords).length = 2 ∧
    ((sameMonthRecords.map (fun r => (yearOf r.date, monthOf r.date))).dedup).length = 1 := by
  constructor
  · rfl
  · rfl

/-- C5: every forecast row's stored sales value is the raw model
prediction at the row's stored exogenous values, multiplied by 1.2 when
the row's month is in 3, 4, 5, 11, 12, by 0.8 when it is in 1, 2, and
unchanged for every other month; no month is in both sets. -/
theorem forecast_seasonal_adjustment (predict : ℚ → ℚ → ℚ → ℚ → ℚ)
    (rs : List SalesRecord) (umod gmod cmod smod : ℚ) (months : ℕ)
    (out : List CombinedRow)
    (h : forecast predict rs umod gmod cmod smod months = some out) :
    ∀ fr ∈ out, fr.is_forecast = true →
      ((fr.month = 3 ∨ fr.month = 4 ∨ fr.month = 5 ∨ fr.month = 11 ∨ fr.month = 12) →
        fr.sales
          = predict fr.unemployment fr.gas_price fr.cpi_all fr.search_volume * (12 / 10)) ∧
      ((fr.month = 1 ∨ fr.month = 2) →
        fr.sales
          = predict fr.unemployment fr.gas_price fr.cpi_all fr.search_volume * (8 / 10)) ∧
      (¬ (fr.month = 3 ∨ fr.month = 4 ∨ fr.month = 5 ∨ fr.month = 11 ∨ fr.month = 12) →
        ¬ (fr.month = 1 ∨ fr.month = 2) →
        fr.sales
          = predict fr.unemployment fr.gas_price fr.cpi_all fr.search_volume) ∧
      ¬ ((fr.month = 3 ∨ fr.month = 4 ∨ fr.month = 5 ∨ fr.month = 11 ∨ fr.month = 12) ∧
         (fr.month = 1 ∨ fr.month = 2)) := by
  rw [forecast_spec] at h
  cases hl : (aggregateMonthlyData rs).getLast? with
  | none => rw [hl] at h; cases h
  | some last =>
      rw [hl] at h
      have hout := Option.some.inj h
      subst hout
      intro fr hfr hforecast
      rcases List.mem_append.mp hfr with hh | hf
      · obtain ⟨m, -, rfl⟩ := List.mem_map.mp hh
        cases hforecast
      · obtain ⟨j, -, rfl⟩ := List.mem_map.mp hf
        simp only [forecastRow]
        by_cases h1 : monthOf (last.date + 30 * ((j : ℤ) + 1)) = 3 ∨
            monthOf (last.date + 30 * ((j : ℤ) + 1)) = 4 ∨
            monthOf (last.date + 30 * ((j : ℤ) + 1)) = 5 ∨
            monthOf (last.date + 30 * ((j : ℤ) + 1)) = 11 ∨
            monthOf (last.date + 30 * ((j : ℤ) + 1)) = 12
        · refine ⟨fun _ => by rw [if_pos h1], fun h2 => ?_, fun hn1 _ => absurd h1 hn1, ?_⟩
          · exact absurd h2 (by omega)
          · rintro ⟨ha, hb⟩
            omega
        · by_cases h2 : monthOf (last.date + 30 * ((j : ℤ) + 1)) = 1 ∨
              monthOf (last.date + 30 * ((j : ℤ) + 1)) = 2
          · refine ⟨fun ha => absurd ha h1, fun _ => by rw [if_neg h1, if_pos h2],
              fun _ hn2 => absurd h2 hn2, ?_⟩
            rintro ⟨ha, -⟩
            exact h1 ha
          · refine ⟨fun ha => absurd ha h1, fun hb => absurd hb h2,
              fun _ _ => by rw [if_neg h1, if_neg h2], ?_⟩
            rintro ⟨ha, -⟩
            exact h1 ha

/-- Witness for C5 at a concrete one-record, one-step forecast. -/
theorem forecast_seasonal_adjustment_witness :
    (wfr5 ∈ wout5) ∧ (wfr5.is_forecast = true) ∧
    (((wfr5.month = 3 ∨ wfr5.month = 4 ∨ wfr5.month = 5 ∨ wfr5.month = 11 ∨ wfr5.month = 12) →
        wfr5.sales
          = wpredict wfr5.unemployment wfr5.gas_price wfr5.cpi_all wfr5.search_volume * (12 / 10)) ∧
      ((wfr5.month = 1 ∨ wfr5.month = 2) →
        wfr5.sales
          = wpredict wfr5.unemployment wfr5.gas_price wfr5.cpi_all wfr5.search_volume * (8 / 10)) ∧
      (¬ (wfr5.month = 3 ∨ wfr5.month = 4 ∨ wfr5.month = 5 ∨ wfr5.month = 11 ∨ wfr5.month = 12) →
        ¬ (wfr5.month = 1 ∨ wfr5.month = 2) →
        wfr5.sales
          = wpredict wfr5.unemployment wfr5.gas_price wfr5.cpi_all wfr5.search_volume) ∧
      ¬ ((wfr5.month = 3 ∨ wfr5.month = 4 ∨ wfr5.month = 5 ∨ wfr5.month = 11 ∨ wfr5.month = 12) ∧
         (wfr5.month = 1 ∨ wfr5.month = 2))) :=
  ⟨List.mem_append_right _ (List.mem_singleton_self _), rfl,
    forecast_seasonal_adjustment wpredict [oneRecord] 1 1 1 1 1 wout5 rfl wfr5
      (List.mem_append_right _ (List.mem_singleton_self _)) rfl⟩

/-- C1 (amended): for forecast step `i = j + 1` (with `j` the 0-based
index of the forecast segment, the Python `enumerate` index), each of the
four projected exogenous values equals the anchor's value times the
corresponding modifier times `time_factor = 1 + 0.05 * j
= 1 + 0.05 * (i - 1)`; in particular, with all modifiers 1 the projections
are the anchor values scaled only by that factor. -/
theorem forecast_time_factor (predict : ℚ → ℚ → ℚ → ℚ → ℚ)
    (rs : List SalesRecord) (umod gmod cmod smod : ℚ) (months : ℕ)
    (out : List CombinedRow) (last : MonthlyRow)
    (h : forecast predict rs umod gmod cmod smod months = some out)
    (hl : (aggregateMonthlyData rs).getLast? = some last) :
    (out.drop (aggregateMonthlyData rs).length).map
        (fun fr => (fr.unemployment, fr.gas_price, fr.cpi_all, fr.search_volume))
      = (List.range months).map (fun j : ℕ =>
          (last.unemployment * umod * (1 + (j : ℚ) * (5 / 100)),
           last.gas_price * gmod * (1 + (j : ℚ) * (5 / 100)),
           last.cpi_all * cmod * (1 + (j : ℚ) * (5 / 100)),
           last.search_volume * smod * (1 + (j : ℚ) * (5 / 100)))) := by
  rw [forecast_spec, hl] at h
  have hout := Option.some.inj h
  subst hout
  rw [List.drop_left' (List.length_map _ _), List.map_map]
  rfl

/-- Witness for C1's amended statement: one record, two forecast steps. -/
theorem forecast_time_factor_witness :
    (wout1.drop (aggregateMonthlyData [oneRecord]).length).map
        (fun fr => (fr.unemployment, fr.gas_price, fr.cpi_all, fr.search_volume))
      = (List.range 2).map (fun j : ℕ =>
          ((aggRow [oneRecord] 0).unemployment * 1 * (1 + (j : ℚ) * (5 / 100)),
           (aggRow [oneRecord] 0).gas_price * 1 * (1 + (j : ℚ) * (5 / 100)),
           (aggRow [oneRecord] 0).cpi_all * 1 * (1 + (j : ℚ) * (5 / 100)),
           (aggRow [oneRecord] 0).search_volume * 1 * (1 + (j : ℚ) * (5 / 100)))) :=
  forecast_time_factor (fun _ _ _ _ => 0) [oneRecord] 1 1 1 1 2 wout1
    (aggRow [oneRecord] 0) rfl rfl

/-- Counterexample to C1 as stated: with a single anchor record whose
values are all 1 and all modifiers 1, the claim prescribes a first-step
projection of `1 * 1 * (1 + 0.05 * 1) = 1.05`, but the code's first
forecast row carries projection `1` (its `enumerate` index is 0, so the
first step's `time_factor` is `1.0`). -/
theorem forecast_time_factor_counterexample :
    c1row.map (·.unemployment) = some 1 ∧
    ¬ ((1 : ℚ) = 1 * 1 * (1 + 5 / 100 * 1)) := by
  constructor
  · have hagg : aggregateMonthlyData [oneRecord] = [rowOf oneRecord] :=
      agg_of_distinct [oneRecord] (by decide) (by decide)
    have hrow : c1row = some (forecastRow (fun _ _ _ _ => 0) (rowOf oneRecord) 1 1 1 1 0) := by
      simp only [c1row, forecast_spec, hagg]
      rfl
    rw [hrow, Option.map_some']
    rw [show (forecastRow (fun _ _ _ _ => 0) (rowOf oneRecord) 1 1 1 1 0).unemployment
          = (rowOf oneRecord).unemployment * 1 * (1 + ((0 : ℕ) : ℚ) * (5 / 100)) from rfl]
    norm_num [rowOf, oneRecord]
  · norm_num

/-- C6 (amended): on the 12-month scenario with constant exogenous values
(unemployment 5.0, gas price 3.0, CPI 250, search volume 80) and constant
sales 15000 = 20000 - 1000 * 5, the linear fit sklearn computes has zero
coefficients (the centered design matrix is zero, so the minimum-norm
least-squares solution is zero) and intercept 15000; hence forecasting one
month ahead with unemployment modifier 2.0 and the other modifiers 1.0
yields a raw prediction (before seasonal adjustment) equal to — not
strictly below — the last historical sales value. -/
theorem linear_scenario_prediction (β : Coef) (b : ℚ)
    (h : IsSklearnLinearFit X12 y12 β b) :
    c6raw β b = lastSalesOf records12 := by
  obtain ⟨hmin, hnorm, -⟩ := h
  have hminimizer : ∀ β'' b'',
      ssr X12 y12 ((0 : ℚ), (0 : ℚ), (0 : ℚ), (0 : ℚ)) 15000 ≤ ssr X12 y12 β'' b'' := by
    intro β'' b''
    rw [ssr12_zero]
    exact ssr_nonneg _ _ _ _
  have hn : dot4 β β ≤ 0 := by
    have hle := hnorm ((0 : ℚ), (0 : ℚ), (0 : ℚ), (0 : ℚ)) 15000 hminimizer
    calc dot4 β β ≤ dot4 ((0 : ℚ), (0 : ℚ), (0 : ℚ), (0 : ℚ)) ((0 : ℚ), (0 : ℚ), (0 : ℚ), (0 : ℚ)) := hle
    _ = 0 := by simp [dot4]
  obtain ⟨β1, β2, β3, β4⟩ := β
  simp only [dot4] at hn
  have h1 : β1 = 0 := by
    have : β1 * β1 = 0 := le_antisymm
      (by nlinarith [mul_self_nonneg β2, mul_self_nonneg β3, mul_self_nonneg β4])
      (mul_self_nonneg β1)
    exact mul_self_eq_zero.mp this
  have h2 : β2 = 0 := by
    have : β2 * β2 = 0 := le_antisymm
      (by nlinarith [mul_self_nonneg β1, mul_self_nonneg β3, mul_self_nonneg β4])
      (mul_self_nonneg β2)
    exact mul_self_eq_zero.mp this
  have h3 : β3 = 0 := by
    have : β3 * β3 = 0 := le_antisymm
      (by nlinarith [mul_self_nonneg β1, mul_self_nonneg β2, mul_self_nonneg β4])
      (mul_self_nonneg β3)
    exact mul_self_eq_zero.mp this
  have h4 : β4 = 0 := by
    have : β4 * β4 = 0 := le_antisymm
      (by nlinarith [mul_self_nonneg β1, mul_self_nonneg β2, mul_self_nonneg β3])
      (mul_self_nonneg β4)
    exact mul_self_eq_zero.mp this
  subst h1 h2 h3 h4
  have hb : ssr X12 y12 ((0 : ℚ), (0 : ℚ), (0 : ℚ), (0 : ℚ)) b ≤ 0 := by
    have hle := hmin ((0 : ℚ), (0 : ℚ), (0 : ℚ), (0 : ℚ)) 15000
    rwa [ssr12_zero] at hle
  rw [ssr12] at hb
  have ht : dot4 ((0 : ℚ), (0 : ℚ), (0 : ℚ), (0 : ℚ)) ((5 : ℚ), (3 : ℚ), (250 : ℚ), (80 : ℚ))
      + b - 15000 = 0 := by
    have hsq := sq_nonneg (dot4 ((0 : ℚ), (0 : ℚ), (0 : ℚ), (0 : ℚ))
      ((5 : ℚ), (3 : ℚ), (250 : ℚ), (80 : ℚ)) + b - 15000)
    have h0 : (dot4 ((0 : ℚ), (0 : ℚ), (0 : ℚ), (0 : ℚ))
        ((5 : ℚ), (3 : ℚ), (250 : ℚ), (80 : ℚ)) + b - 15000) ^ 2 = 0 :=
      le_antisymm (by linarith) hsq
    exact sq_eq_zero_iff.mp h0
  have hbval : b = 15000 := by
    simp only [dot4] at ht
    linarith
  subst hbval
  rw [c6raw_zero, lastSales12]

/-- Witness for C6's amended statement at the fit sklearn actually
produces on that data. -/
theorem linear_scenario_prediction_witness :
    IsSklearnLinearFit X12 y12 ((0 : ℚ), (0 : ℚ), (0 : ℚ), (0 : ℚ)) 15000 ∧
    c6raw ((0 : ℚ), (0 : ℚ), (0 : ℚ), (0 : ℚ)) 15000 = lastSalesOf records12 :=
  ⟨isFitZero, linear_scenario_prediction _ _ isFitZero⟩

/-- Counterexample to C6 as stated: at the fit sklearn produces on the
constant-feature scenario, the raw one-step prediction is not strictly
below the last historical sales value (it equals it). -/
theorem linear_scenario_not_below :
    IsSklearnLinearFit X12 y12 ((0 : ℚ), (0 : ℚ), (0 : ℚ), (0 : ℚ)) 15000 ∧
    ¬ (c6raw ((0 : ℚ), (0 : ℚ), (0 : ℚ), (0 : ℚ)) 15000 < lastSalesOf records12) := by
  refine ⟨isFitZero, ?_⟩
  rw [c6raw_zero, lastSales12]
  exact lt_irrefl _

/-- Witness for C2 at a concrete engine. -/
theorem train_empty_state_unchanged_witness :
    aggregateMonthlyData ([] : List SalesRecord) = [] ∧
    trainEngine engine0 [] = (engine0, some TrainError.zeroSamples) :=
  train_empty_state_unchanged engine0

/-- Witness for C3's amended statement at a concrete two-record input. -/
theorem aggregate_one_row_per_date_witness :
    ((aggregateMonthlyData sameMonthRecords).map (·.date)).Nodup ∧
    (∀ d : ℤ, d ∈ (aggregateMonthlyData sameMonthRecords).map (·.date) ↔
        ∃ r ∈ sameMonthRecords, r.date = d) ∧
    ((aggregateMonthlyData sameMonthRecords).map (·.date)).Pairwise (· < ·) :=
  aggregate_one_row_per_date sameMonthRecords

/-- Witness for C7 at a concrete two-record input. -/
theorem aggregate_idempotent_witness :
    aggregateMonthlyData ((aggregateMonthlyData sameMonthRecords).map recordOfRow)
      = aggregateMonthlyData sameMonthRecords :=
  aggregate_idempotent sameMonthRecords

/-- Witness for C9 at concrete inputs. -/
theorem forecast_no_side_effects_witness :
    (engineForecast engine0 wpredict [oneRecord] 1 1 1 1 2).2.1 = engine0 ∧
    (engineForecast engine0 wpredict [oneRecord] 1 1 1 1 2).2.2 = [oneRecord] ∧
    engineForecast (engineForecast engine0 wpredict [oneRecord] 1 1 1 1 2).2.1 wpredict
        (engineForecast engine0 wpredict [oneRecord] 1 1 1 1 2).2.2 3 4 5 6 4
      = engineForecast engine0 wpredict [oneRecord] 3 4 5 6 4 :=
  forecast_no_side_effects engine0 wpredict [oneRecord] 1 1 1 1 3 4 5 6 2 4
